import Mathlib

/-!
Shallow embedding of s3tool (src/s3tool/s3ops.py): the data model, the three
bucket operations and the session/client construction, with the storage
service, the local filesystem and the process environment made explicit
parameters.
-/

/-- Truthiness of a Python Optional[str]: None and the empty string are falsy. -/
def pyTruthy : Option String → Bool
  | none => false
  | some s => s != ""

/-- Python "a or b" for strings: yields b exactly when a is empty (falsy). -/
def pyOrStr (a b : String) : String :=
  if a == "" then b else a

/-- Python "a or b" where a is Optional[str] and b a string, as in the
listing call at s3ops.py:58 where the Prefix parameter is built. -/
def pyOrOptStr (a : Option String) (b : String) : String :=
  if pyTruthy a then a.getD "" else b

/-- Python "a or None" for Optional[str] a, as in s3ops.py:31. -/
def pyOrNone (a : Option String) : Option String :=
  if pyTruthy a then a else none

/-- Exceptions relevant to s3ops.py: clientError models
botocore.exceptions.ClientError, the storage-service errors (object not
found, access denied, service failure); authError models
credential-resolution errors; osError models local filesystem errors;
runtimeError models RuntimeError raised with "from cause", which keeps the
original exception attached as the cause. -/
inductive Exc where
  | clientError (desc : String)
  | authError (desc : String)
  | osError (desc : String)
  | runtimeError (msg : String) (cause : Exc)
  deriving DecidableEq

/-- A listed object: its key and its reported Size in bytes (s3ops.py:61). -/
structure S3Object where
  key : String
  size : Nat
  deriving DecidableEq

/-- One page of a ListObjectsV2 result; contents models
page.get("Contents", "empty list") at s3ops.py:59. -/
structure Page where
  contents : List S3Object
  deriving DecidableEq

/-- The listing request issued by summarize_bucket at s3ops.py:58:
Bucket=bucket and Prefix=prefix-or-empty; pfx models the Prefix parameter. -/
structure ListRequest where
  bucket : String
  pfx : String
  deriving DecidableEq

/-- The S3Summary dataclass (s3ops.py:12-17); pfx models the field holding
the optional key prefix. -/
structure S3Summary where
  bucket : String
  pfx : Option String
  object_count : Nat
  total_bytes : Nat
  deriving DecidableEq

/-- Round-half-even of a rational: the rounding performed by Python's
two-decimal float formatting on the exact value of the float. Divisions of
an exactly representable value by 1024 are exact in binary floating point,
so for the sizes considered here the float's exact value is the rational
computed by repeated division. -/
def roundHalfEven (q : ℚ) : ℤ :=
  if q - Int.floor q < 1/2 then Int.floor q
  else if 1/2 < q - Int.floor q then Int.floor q + 1
  else if Int.floor q % 2 = 0 then Int.floor q else Int.floor q + 1

/-- Python two-decimal formatting of a non-negative value, as in
s3ops.py:23. -/
def formatTwoDec (q : ℚ) : String :=
  let m : Nat := (roundHalfEven (q * 100)).toNat
  toString (m / 100) ++ "." ++
    (if m % 100 < 10 then "0" ++ toString (m % 100) else toString (m % 100))

/-- The unit loop of S3Summary.human_readable_size (s3ops.py:21-25): step
to the next unit while the size is at least 1024, dividing by 1024; fall
through to EB after PB. -/
def humanLoop : ℚ → List String → String
  | size, [] => formatTwoDec size ++ " EB"
  | size, u :: us =>
    if size < 1024 then formatTwoDec size ++ " " ++ u
    else humanLoop (size / 1024) us

/-- S3Summary.human_readable_size (s3ops.py:19-25). -/
def S3Summary.human_readable_size (s : S3Summary) : String :=
  humanLoop (s.total_bytes : ℚ) ["B", "KB", "MB", "GB", "TB", "PB"]

/-- The process environment (os.environ) as an association list. -/
abbrev Env := List (String × String)

/-- Assignment to os.environ: overwrite the existing entry or append. -/
def envSet (env : Env) (k v : String) : Env :=
  if env.any (fun kv => kv.1 == k) then
    env.map (fun kv => if kv.1 == k then (k, v) else kv)
  else env ++ [(k, v)]

/-- A boto3 Session as constructed at s3ops.py:31. -/
structure Session where
  profile_name : Option String
  region_name : Option String
  deriving DecidableEq

/-- The _session helper (s3ops.py:28-31): when the profile is truthy it
first assigns os.environ["AWS_PROFILE"], then builds the session with
profile_name = profile-or-None and region_name = region-or-None. Returns
the updated environment together with the session. -/
def _session (aws_profile region : Option String) (env : Env) : Env × Session :=
  let env2 := if pyTruthy aws_profile then envSet env "AWS_PROFILE" (aws_profile.getD "")
              else env
  (env2, ⟨pyOrNone aws_profile, pyOrNone region⟩)

/-- The fixed client configuration of s3ops.py:37: standard retries capped
at 10 attempts, 5 s connect timeout, 60 s read timeout. -/
structure ClientConfig where
  max_attempts : Nat
  connect_timeout : Nat
  read_timeout : Nat
  deriving DecidableEq

/-- An S3 client handle: the session it came from plus its configuration. -/
structure S3Client where
  session : Session
  cfg : ClientConfig
  deriving DecidableEq

/-- The _s3_client helper (s3ops.py:34-38): builds the session (with its
environment side effect) and a client with the fixed configuration. -/
def _s3_client (aws_profile region : Option String) (env : Env) : Env × S3Client :=
  let es := _session aws_profile region env
  (es.1, ⟨es.2, ⟨10, 5, 60⟩⟩)

/-- The storage service as seen through paginator.paginate: a listing
request either fails or yields the complete sequence of pages. -/
abbrev ListService := ListRequest → Except Exc (List Page)

/-- The aggregation loop of summarize_bucket (s3ops.py:55-61) on the
running (count, total) state: each listed object increments the count and
adds its size to the total. -/
def summarizeLoop (acc : Nat × Nat) (pages : List Page) : Nat × Nat :=
  pages.foldl
    (fun a page => page.contents.foldl (fun b obj => (b.1 + 1, b.2 + obj.size)) a)
    acc

/-- summarize_bucket (s3ops.py:41-63): issues one paginated listing for
Bucket=bucket, Prefix=prefix-or-empty, folds the pages with the counting
loop starting from zero, and packs the result into an S3Summary carrying
the original optional prefix. A listing failure aborts the whole call. -/
def summarize_bucket (bucket : String) (pfx : Option String) (service : ListService) :
    Except Exc S3Summary :=
  match service ⟨bucket, pyOrOptStr pfx ""⟩ with
  | .error e => .error e
  | .ok pages =>
    let ct := summarizeLoop (0, 0) pages
    .ok ⟨bucket, pfx, ct.1, ct.2⟩

/-- Python posixpath.dirname: the part of the path up to the last slash,
with trailing slashes stripped unless the head is nothing but slashes. -/
def dirname (p : String) : String :=
  let head := (p.toList.reverse.dropWhile (fun c => c != '/')).reverse
  let head :=
    if head.isEmpty || head.all (fun c => c == '/') then head
    else (head.reverse.dropWhile (fun c => c == '/')).reverse
  String.mk head

/-- A directory together with its chain of ancestors, by repeated dirname;
the fuel argument only bounds the recursion. -/
def parentChain : Nat → String → List String
  | 0, p => [p]
  | fuel + 1, p =>
    let d := dirname p
    if d == "" || d == p then [p] else p :: parentChain fuel d

/-- Model of os.makedirs(name, exist_ok=True) by its documented contract:
afterwards the leaf directory and all intermediate ones exist, existing
directories are kept, and no error is raised on pre-existing directories. -/
def makedirs (dirs : List String) (name : String) : List String :=
  parentChain name.length name ++ dirs

/-- The local filesystem: existing directories, and files as a path-to-
content list where a newly written entry shadows any older one. -/
structure FS where
  dirs : List String
  files : List (String × String)

/-- download_object (s3ops.py:66-81): first ensures the directory
dirname(dest_path)-or-dot exists, then transfers. The fetch argument is
the outcome of s3.download_file, carrying the object content on success.
Only clientError is caught and re-raised as a runtimeError whose message
embeds bucket, key and the cause description and whose cause is the
original error; every other failure propagates unmodified. On success the
file is written at dest_path and dest_path itself is returned. -/
def download_object (bucket key dest_path : String) (fetch : Except Exc String) (fs : FS) :
    Except Exc String × FS :=
  let dirs2 := makedirs fs.dirs (pyOrStr (dirname dest_path) ".")
  match fetch with
  | .ok content => (.ok dest_path, ⟨dirs2, (dest_path, content) :: fs.files⟩)
  | .error (.clientError desc) =>
      (.error (.runtimeError ("Failed to download s3://" ++ bucket ++ "/" ++ key ++ ": " ++ desc)
        (.clientError desc)), ⟨dirs2, fs.files⟩)
  | .error e => (.error e, ⟨dirs2, fs.files⟩)

/-- The extra_args dict built by upload_file (s3ops.py:103-109), as the
ordered list of its entries: each key is present exactly when the
corresponding option is truthy. -/
def extra_args (content_type sse acl : Option String) : List (String × String) :=
  (if pyTruthy content_type then [("ContentType", content_type.getD "")] else []) ++
  (if pyTruthy sse then [("ServerSideEncryption", sse.getD "")] else []) ++
  (if pyTruthy acl then [("ACL", acl.getD "")] else [])

/-- The call made to s3.upload_file: ExtraArgs is passed only when the
dict is non-empty (s3ops.py:112-115). -/
inductive PutCall where
  | plain (src_path bucket key : String)
  | withArgs (src_path bucket key : String) (extraArgs : List (String × String))
  deriving DecidableEq

/-- upload_file (s3ops.py:84-119). The put argument is the storage side:
the outcome of s3.upload_file on the call it receives. Only clientError is
caught and re-raised as a runtimeError embedding source path, bucket, key
and the cause; every other failure propagates unmodified. On success the
(bucket, key) pair is returned. -/
def upload_file (src_path bucket key : String) (content_type sse acl : Option String)
    (put : PutCall → Except Exc Unit) : Except Exc (String × String) :=
  let ea := extra_args content_type sse acl
  let call := if ea.isEmpty then PutCall.plain src_path bucket key
              else PutCall.withArgs src_path bucket key ea
  match put call with
  | .ok _ => .ok (bucket, key)
  | .error (.clientError desc) =>
      .error (.runtimeError ("Failed to upload " ++ src_path ++ " to s3://" ++ bucket ++ "/" ++ key
        ++ ": " ++ desc) (.clientError desc))
  | .error e => .error e

/-- The inner object loop of summarize adds the list length to the count
and the total size to the running total. -/
theorem objLoop_eq (objs : List S3Object) (acc : Nat × Nat) :
    objs.foldl (fun b obj => (b.1 + 1, b.2 + obj.size)) acc =
      (acc.1 + objs.length, acc.2 + (objs.map S3Object.size).sum) := by
  induction objs generalizing acc with
  | nil => simp
  | cons o os ih =>
    simp [List.foldl_cons, ih]
    omega

/-- The page loop of summarize adds the joined listing's length to the
count and its total size to the running total. -/
theorem summarizeLoop_eq (pages : List Page) (acc : Nat × Nat) :
    summarizeLoop acc pages =
      (acc.1 + ((pages.map Page.contents).flatten).length,
       acc.2 + (((pages.map Page.contents).flatten).map S3Object.size).sum) := by
  induction pages generalizing acc with
  | nil => simp [summarizeLoop]
  | cons p ps ih =>
    have : summarizeLoop acc (p :: ps) =
        summarizeLoop (p.contents.foldl (fun b obj => (b.1 + 1, b.2 + obj.size)) acc) ps := rfl
    rw [this, ih, objLoop_eq]
    simp
    omega

/-- C4: for every download whose storage side fails with a storage-service
error, the operation raises a single generic download-failure error whose
message embeds the bucket, the key and the description of the underlying
cause, and which carries the original error as its cause. -/
theorem download_wraps_client_error (bucket key dest_path desc : String) (fs : FS) :
    (download_object bucket key dest_path (.error (.clientError desc)) fs).1 =
      .error (.runtimeError
        ("Failed to download s3://" ++ bucket ++ "/" ++ key ++ ": " ++ desc)
        (.clientError desc)) := rfl

/-- C5: only storage-service errors are caught and re-wrapped with context
by download and upload; authentication errors and local I/O errors
propagate unmodified. -/
theorem only_client_errors_wrapped (bucket key dest_path src_path desc : String)
    (content_type sse acl : Option String) (fs : FS) :
    (download_object bucket key dest_path (.error (.authError desc)) fs).1 =
      .error (.authError desc) ∧
    (download_object bucket key dest_path (.error (.osError desc)) fs).1 =
      .error (.osError desc) ∧
    upload_file src_path bucket key content_type sse acl (fun _ => .error (.authError desc)) =
      .error (.authError desc) ∧
    upload_file src_path bucket key content_type sse acl (fun _ => .error (.osError desc)) =
      .error (.osError desc) ∧
    (∃ msg, (download_object bucket key dest_path (.error (.clientError desc)) fs).1 =
      .error (.runtimeError msg (.clientError desc))) ∧
    (∃ msg, upload_file src_path bucket key content_type sse acl
        (fun _ => .error (.clientError desc)) =
      .error (.runtimeError msg (.clientError desc))) :=
  ⟨rfl, rfl, rfl, rfl, ⟨_, rfl⟩, ⟨_, rfl⟩⟩

/-- C10: an upload option supplied as the empty string is treated exactly
as if it were unset, because forwarding is decided by truthiness: the
resulting call to the storage side is identical. -/
theorem upload_empty_string_option_as_unset (src_path bucket key : String)
    (content_type sse acl : Option String) (put : PutCall → Except Exc Unit) :
    upload_file src_path bucket key (some "") sse acl put =
      upload_file src_path bucket key none sse acl put ∧
    upload_file src_path bucket key content_type (some "") acl put =
      upload_file src_path bucket key content_type none acl put ∧
    upload_file src_path bucket key content_type sse (some "") put =
      upload_file src_path bucket key content_type sse none put := by
  refine ⟨?_, ?_, ?_⟩ <;> simp [upload_file, extra_args, pyTruthy]

/-- C6: when the service lists zero matching objects under the requested
bucket and prefix, summarize returns the non-error result with
object_count = 0 and total_bytes = 0. -/
theorem summarize_bucket_empty_listing (bucket : String) (pfx : Option String)
    (service : ListService) (pages : List Page)
    (h : service ⟨bucket, pyOrOptStr pfx ""⟩ = .ok pages)
    (hempty : (pages.map Page.contents).flatten = []) :
    summarize_bucket bucket pfx service = .ok ⟨bucket, pfx, 0, 0⟩ := by
  unfold summarize_bucket
  rw [h]
  simp [summarizeLoop_eq, hempty]

/-- C6 witness: an empty listing gives the zero summary. -/
theorem summarize_bucket_empty_listing_witness :
    summarize_bucket "b" (some "p/") (fun _ => .ok [⟨[]⟩]) = .ok ⟨"b", some "p/", 0, 0⟩ :=
  summarize_bucket_empty_listing "b" (some "p/") (fun _ => .ok [⟨[]⟩]) [⟨[]⟩] rfl rfl

/-- C7: summarizing with the empty-string prefix issues the same listing
request as summarizing with no prefix (the whole bucket is scanned), and
the resulting object_count and total_bytes coincide. -/
theorem summarize_empty_string_pfx_eq_none (bucket : String) (service : ListService) :
    (⟨bucket, pyOrOptStr (some "") ""⟩ : ListRequest) = ⟨bucket, pyOrOptStr none ""⟩ ∧
    (summarize_bucket bucket (some "") service).map (fun s => (s.object_count, s.total_bytes)) =
      (summarize_bucket bucket none service).map (fun s => (s.object_count, s.total_bytes)) := by
  constructor
  · rfl
  · unfold summarize_bucket
    cases hs : service ⟨bucket, pyOrOptStr (some "") ""⟩ with
    | error e =>
      have hs2 : service ⟨bucket, pyOrOptStr none ""⟩ = .error e := hs
      rw [hs2]
    | ok pages =>
      have hs2 : service ⟨bucket, pyOrOptStr none ""⟩ = .ok pages := hs
      rw [hs2]
      rfl

/-- C1: when the service lists N objects of sizes s1..sn for the requested
bucket and prefix, summarize returns object_count = N and total_bytes =
sum of the sizes, and the result is the same for any other pagination or
listing order of the same objects. -/
theorem summarize_pagination_order_invariant (bucket : String) (pfx : Option String)
    (service service2 : ListService) (pages pages2 : List Page)
    (h : service ⟨bucket, pyOrOptStr pfx ""⟩ = .ok pages)
    (h2 : service2 ⟨bucket, pyOrOptStr pfx ""⟩ = .ok pages2)
    (hperm : ((pages.map Page.contents).flatten).Perm ((pages2.map Page.contents).flatten)) :
    summarize_bucket bucket pfx service =
      .ok ⟨bucket, pfx, ((pages.map Page.contents).flatten).length,
        (((pages.map Page.contents).flatten).map S3Object.size).sum⟩ ∧
    summarize_bucket bucket pfx service2 =
      .ok ⟨bucket, pfx, ((pages.map Page.contents).flatten).length,
        (((pages.map Page.contents).flatten).map S3Object.size).sum⟩ := by
  constructor
  · unfold summarize_bucket
    rw [h]
    simp [summarizeLoop_eq]
  · unfold summarize_bucket
    rw [h2]
    simp only [summarizeLoop_eq, Nat.zero_add]
    rw [hperm.length_eq, (hperm.map S3Object.size).sum_eq]

/-- C1 witness: two objects of sizes 100 and 200 listed once as two pages
in key order and once as a single page in reversed order give the same
summary with object_count = 2 and total_bytes = 300. -/
theorem summarize_pagination_order_invariant_witness :
    summarize_bucket "b" none (fun _ => .ok [⟨[⟨"a", 100⟩]⟩, ⟨[⟨"k", 200⟩]⟩]) =
      .ok ⟨"b", none, 2, 300⟩ ∧
    summarize_bucket "b" none (fun _ => .ok [⟨[⟨"k", 200⟩, ⟨"a", 100⟩]⟩]) =
      .ok ⟨"b", none, 2, 300⟩ := by
  have h := summarize_pagination_order_invariant "b" none
    (fun _ => .ok [⟨[⟨"a", 100⟩]⟩, ⟨[⟨"k", 200⟩]⟩])
    (fun _ => .ok [⟨[⟨"k", 200⟩, ⟨"a", 100⟩]⟩])
    [⟨[⟨"a", 100⟩]⟩, ⟨[⟨"k", 200⟩]⟩] [⟨[⟨"k", 200⟩, ⟨"a", 100⟩]⟩] rfl rfl (by decide)
  exact h

/-- C8: a successful download first ensures the destination's parent
directory chain exists (the directory used is "." when dest_path has no
directory component), writes the object at dest_path shadowing any
existing file there, and returns dest_path exactly as given. -/
theorem download_success_spec (bucket key dest_path content : String) (fs : FS) :
    (download_object bucket key dest_path (.ok content) fs).1 = .ok dest_path ∧
    ((download_object bucket key dest_path (.ok content) fs).2.files).lookup dest_path =
      some content ∧
    (∀ d, d ∈ parentChain (pyOrStr (dirname dest_path) ".").length
        (pyOrStr (dirname dest_path) ".") →
      d ∈ (download_object bucket key dest_path (.ok content) fs).2.dirs) ∧
    (dirname dest_path = "" →
      "." ∈ (download_object bucket key dest_path (.ok content) fs).2.dirs) := by
  refine ⟨rfl, ?_, ?_, ?_⟩
  · simp [download_object, List.lookup]
  · intro d hd
    simp only [download_object, makedirs]
    exact List.mem_append_left _ hd
  · intro hroot
    have hdot : pyOrStr (dirname dest_path) "." = "." := by rw [hroot]; rfl
    simp only [download_object, makedirs, hdot]
    exact List.mem_append_left _ (by decide)

/-- C8 witness: downloading to a/b/c/file.txt on an empty filesystem
returns that path, stores the content there, and creates the directory
chain a/b/c, a/b, a. -/
theorem download_success_spec_witness :
    (download_object "b" "k" "a/b/c/file.txt" (.ok "data") ⟨[], [("a/b/c/file.txt", "old")]⟩).1 =
      .ok "a/b/c/file.txt" ∧
    ((download_object "b" "k" "a/b/c/file.txt" (.ok "data")
        ⟨[], [("a/b/c/file.txt", "old")]⟩).2.files).lookup "a/b/c/file.txt" = some "data" ∧
    "a/b/c" ∈ (download_object "b" "k" "a/b/c/file.txt" (.ok "data")
        ⟨[], [("a/b/c/file.txt", "old")]⟩).2.dirs ∧
    "a/b" ∈ (download_object "b" "k" "a/b/c/file.txt" (.ok "data")
        ⟨[], [("a/b/c/file.txt", "old")]⟩).2.dirs ∧
    "a" ∈ (download_object "b" "k" "a/b/c/file.txt" (.ok "data")
        ⟨[], [("a/b/c/file.txt", "old")]⟩).2.dirs := by
  have h := download_success_spec "b" "k" "a/b/c/file.txt" "data" ⟨[], [("a/b/c/file.txt", "old")]⟩
  exact ⟨h.1, h.2.1, h.2.2.1 "a/b/c" (by decide), h.2.2.1 "a/b" (by decide),
    h.2.2.1 "a" (by decide)⟩

/-- C9 counterexample: invoking client construction with the profile
supplied as the empty string leaves the process environment unchanged
instead of setting AWS_PROFILE to that identifier. -/
theorem client_profile_env_cex :
    (_s3_client (some "") none []).1 ≠ envSet [] "AWS_PROFILE" "" := by decide

/-- C9 amended: for every operation invoked with a non-empty profile
identifier, client construction sets the process environment variable
AWS_PROFILE to that identifier as a side effect; when no profile is given,
or the profile is the empty string (falsy, hence treated as absent), the
process environment is left unchanged. -/
theorem client_profile_env (region : Option String) (env : Env) :
    (∀ p : String, p ≠ "" → (_s3_client (some p) region env).1 = envSet env "AWS_PROFILE" p) ∧
    (_s3_client none region env).1 = env ∧
    (_s3_client (some "") region env).1 = env := by
  refine ⟨?_, rfl, rfl⟩
  intro p hp
  simp [_s3_client, _session, pyTruthy, hp]

/-- C9 witness: a non-empty profile sets AWS_PROFILE in an empty
environment. -/
theorem client_profile_env_witness :
    (_s3_client (some "team-prod") none []).1 = envSet [] "AWS_PROFILE" "team-prod" :=
  (client_profile_env none []).1 "team-prod" (by decide)

/-- C3 counterexample: a content-type explicitly supplied as the empty
string is a supplied field that is not forwarded, so forwarding exactly
the explicitly supplied fields fails at this input. -/
theorem upload_forwards_supplied_cex :
    ¬ ((some "" : Option String).isSome = true →
      ∃ v, ("ContentType", v) ∈ extra_args (some "") none none) := by
  intro h
  rcases h rfl with ⟨v, hv⟩
  simp [extra_args, pyTruthy] at hv

/-- C3 amended: a field is forwarded to the put call exactly when it is
supplied with a non-empty value, with that value; in particular every
unset field is omitted entirely and no default is substituted. When no
field is forwarded the put call carries no extra arguments at all. -/
theorem upload_forwards_exactly_truthy (src_path bucket key v : String)
    (content_type sse acl : Option String) (put : PutCall → Except Exc Unit) :
    ((("ContentType", v) ∈ extra_args content_type sse acl) ↔
      content_type = some v ∧ v ≠ "") ∧
    ((("ServerSideEncryption", v) ∈ extra_args content_type sse acl) ↔
      sse = some v ∧ v ≠ "") ∧
    ((("ACL", v) ∈ extra_args content_type sse acl) ↔ acl = some v ∧ v ≠ "") ∧
    upload_file src_path bucket key none none none put =
      (match put (PutCall.plain src_path bucket key) with
        | .ok _ => .ok (bucket, key)
        | .error (.clientError desc) =>
            .error (.runtimeError ("Failed to upload " ++ src_path ++ " to s3://" ++ bucket ++
              "/" ++ key ++ ": " ++ desc) (.clientError desc))
        | .error e => .error e) := by
  refine ⟨?_, ?_, ?_, rfl⟩ <;>
    cases content_type <;> cases sse <;> cases acl <;>
      simp_all [extra_args, pyTruthy] <;>
        (constructor <;> rintro ⟨h1, h2⟩ <;> simp_all)

/-- Unfolding step of the unit loop below the 1024 boundary. -/
theorem humanLoop_lt (size : ℚ) (u : String) (us : List String) (h : size < 1024) :
    humanLoop size (u :: us) = formatTwoDec size ++ " " ++ u := by
  unfold humanLoop
  rw [if_pos h]

/-- Unfolding step of the unit loop at or above the 1024 boundary. -/
theorem humanLoop_ge (size : ℚ) (u : String) (us : List String) (h : ¬ size < 1024) :
    humanLoop size (u :: us) = humanLoop (size / 1024) us := by
  conv_lhs => rw [humanLoop]
  rw [if_neg h]

/-- Two-decimal formatting of a value whose scaled fractional part is
below one half rounds down to n hundredths. -/
theorem formatTwoDec_round_down (q : ℚ) (n : ℕ) (h1 : (n : ℚ) ≤ q * 100)
    (h2 : q * 100 < n + 1/2) :
    formatTwoDec q =
      toString (n / 100) ++ "." ++
        (if n % 100 < 10 then "0" ++ toString (n % 100) else toString (n % 100)) := by
  have hf : Int.floor (q * 100) = (n : ℤ) := by
    rw [Int.floor_eq_iff]
    constructor
    · push_cast
      linarith
    · push_cast
      linarith
  have hr : roundHalfEven (q * 100) = (n : ℤ) := by
    unfold roundHalfEven
    rw [hf, if_pos]
    push_cast
    linarith
  unfold formatTwoDec
  rw [hr]
  simp

/-- C2: the human-readable size is computed from total_bytes by repeated
division by 1024 through the units B, KB, MB, GB, TB, PB, EB with two
decimal digits: 0 bytes formats as "0.00 B", 1536 as "1.50 KB", 1048576 as
"1.00 MB", 1500000000000 as "1.36 TB", and the unit step occurs exactly at
1024 (1023 bytes stays in B, 1024 bytes moves to KB). -/
theorem human_readable_size_examples :
    (S3Summary.mk "b" none 0 0).human_readable_size = "0.00 B" ∧
    (S3Summary.mk "b" none 1 1536).human_readable_size = "1.50 KB" ∧
    (S3Summary.mk "b" none 1 1048576).human_readable_size = "1.00 MB" ∧
    (S3Summary.mk "b" none 1 1500000000000).human_readable_size = "1.36 TB" ∧
    (S3Summary.mk "b" none 1 1023).human_readable_size = "1023.00 B" ∧
    (S3Summary.mk "b" none 1 1024).human_readable_size = "1.00 KB" := by
  refine ⟨?_, ?_, ?_, ?_, ?_, ?_⟩
  · show humanLoop ((0 : ℕ) : ℚ) ["B", "KB", "MB", "GB", "TB", "PB"] = "0.00 B"
    rw [humanLoop_lt _ _ _ (by norm_num),
      formatTwoDec_round_down _ 0 (by norm_num) (by norm_num)]
    decide
  · show humanLoop ((1536 : ℕ) : ℚ) ["B", "KB", "MB", "GB", "TB", "PB"] = "1.50 KB"
    rw [humanLoop_ge _ _ _ (by norm_num), humanLoop_lt _ _ _ (by norm_num),
      formatTwoDec_round_down _ 150 (by norm_num) (by norm_num)]
    decide
  · show humanLoop ((1048576 : ℕ) : ℚ) ["B", "KB", "MB", "GB", "TB", "PB"] = "1.00 MB"
    rw [humanLoop_ge _ _ _ (by norm_num), humanLoop_ge _ _ _ (by norm_num),
      humanLoop_lt _ _ _ (by norm_num),
      formatTwoDec_round_down _ 100 (by norm_num) (by norm_num)]
    decide
  · show humanLoop ((1500000000000 : ℕ) : ℚ) ["B", "KB", "MB", "GB", "TB", "PB"] = "1.36 TB"
    rw [humanLoop_ge _ _ _ (by norm_num), humanLoop_ge _ _ _ (by norm_num),
      humanLoop_ge _ _ _ (by norm_num), humanLoop_ge _ _ _ (by norm_num),
      humanLoop_lt _ _ _ (by norm_num),
      formatTwoDec_round_down _ 136 (by norm_num) (by norm_num)]
    decide
  · show humanLoop ((1023 : ℕ) : ℚ) ["B", "KB", "MB", "GB", "TB", "PB"] = "1023.00 B"
    rw [humanLoop_lt _ _ _ (by norm_num),
      formatTwoDec_round_down _ 102300 (by norm_num) (by norm_num)]
    decide
  · show humanLoop ((1024 : ℕ) : ℚ) ["B", "KB", "MB", "GB", "TB", "PB"] = "1.00 KB"
    rw [humanLoop_ge _ _ _ (by norm_num), humanLoop_lt _ _ _ (by norm_num),
      formatTwoDec_round_down _ 100 (by norm_num) (by norm_num)]
    decide
